import Mathlib

/-!
Verification of the PyCTest driver for the Parallel Tasking Library (PTL),
`pyctest_PTL.py`, against its natural-language specification.

The driver's decision logic is embedded shallowly: the option resolution
(`configure`), the build-name construction, the configure/build command
strings, the per-test environment settings (`test_env_settings`), the test
command wrapper (`construct_command`), the test registration block of
`run_pyctest`, and the top-level exception handler of `__main__`.
External collaborators (the pyctest toolchain, git, the host platform) are
parameters: branch name, OS facts, CPU count and directories are inputs,
and the filesystem actions the script requests are recorded as an explicit
effect list.
-/

namespace PTL

/-- The three PTL feature flags added by `configure` on top of the generic
pyctest arguments: `--arch`, `--gperf`, `--tbb`, each defaulting to false. -/
structure Flags where
  arch : Bool
  gperf : Bool
  tbb : Bool
deriving DecidableEq

/-- Renders a flag as the `"ON" if flag else "OFF"` expression used in the
CONFIGURE_COMMAND format call. -/
def onOff (b : Bool) : String := if b then "ON" else "OFF"

/-- Two-component `os.path.join`, the only form the script uses. -/
def joinPath (a b : String) : String := a ++ "/" ++ b

/-- The gperf/build-type coercion in `configure`: inside `if args.gperf:`,
`if pyctest.BUILD_TYPE == "Release": pyctest.BUILD_TYPE = "RelWithDebInfo"`. -/
def resolve_build_type (gperf : Bool) (bt : String) : String :=
  if gperf then (if bt = "Release" then "RelWithDebInfo" else bt) else bt

/-- Whether `configure` emits the `warnings.warn` about changing the build
type: exactly when gperf is requested and the build type is `Release`. -/
def coercion_warns (gperf : Bool) (bt : String) : Bool :=
  gperf && (bt = "Release")

/-- A filesystem action requested by `configure`, in request order. -/
inductive FsEffect where
  /-- Execute `cmake --build <dir> --target clean` in `dir`. -/
  | cleanTarget (dir : String)
  /-- `helpers.RemovePath path`. -/
  | removePath (path : String)
  /-- `pyctest.copy_files files srcdir dstdir`. -/
  | copyFiles (files : List String) (srcdir dstdir : String)
deriving DecidableEq

/-- The filesystem actions `configure` performs, in program order: when
`CMakeCache.txt` exists in the binary directory it runs the clean target and
removes `CMakeCache.txt` and `CMakeFiles`; when `--gperf` is given it copies
the two gperf scripts from `<source>/.scripts` into the binary directory. -/
def configure_effects (flags : Flags) (cacheExists : Bool)
    (sourceDir binaryDir : String) : List FsEffect :=
  (if cacheExists then
    [FsEffect.cleanTarget binaryDir,
     FsEffect.removePath (joinPath binaryDir "CMakeCache.txt"),
     FsEffect.removePath (joinPath binaryDir "CMakeFiles")]
  else [])
  ++ (if flags.gperf then
    [FsEffect.copyFiles ["gperf_cpu_profile.sh", "gperf_heap_profile.sh"]
      (joinPath sourceDir ".scripts") binaryDir]
  else [])

/-- The in-memory outcome of `configure`: the parsed flags, the (possibly
coerced) build type, whether the coercion warning fired, and the filesystem
actions requested along the way. -/
structure ConfigureResult where
  flags : Flags
  buildType : String
  warned : Bool
  effects : List FsEffect
deriving DecidableEq

/-- The `configure` function: parses the flags (given here already parsed),
applies the gperf/build-type coercion, and performs its filesystem actions. -/
def configure (flags : Flags) (requestedBuildType : String)
    (cacheExists : Bool) (sourceDir binaryDir : String) : ConfigureResult :=
  { flags := flags
    buildType := resolve_build_type flags.gperf requestedBuildType
    warned := coercion_warns flags.gperf requestedBuildType
    effects := configure_effects flags cacheExists sourceDir binaryDir }

/-- The initial `pyctest.BUILD_NAME`:
`"[{branch}] [{os} {version} {machine}]"`. -/
def base_build_name (branch os ver mach : String) : String :=
  "[" ++ branch ++ "] [" ++ os ++ " " ++ ver ++ " " ++ mach ++ "]"

/-- Value of `pyctest.BUILD_NAME` after the three sequential conditional
reassignments appending `[tbb]`, `[arch]`, `[gperf]` in that order. -/
def build_name (flags : Flags) (branch os ver mach : String) : String :=
  let bn := base_build_name branch os ver mach
  let bn := if flags.tbb then bn ++ " [tbb]" else bn
  let bn := if flags.arch then bn ++ " [arch]" else bn
  let bn := if flags.gperf then bn ++ " [gperf]" else bn
  bn

/-- Value of `pyctest.CONFIGURE_COMMAND` as assembled by the format call in
`run_pyctest`. -/
def configure_command (flags : Flags) (buildType sourceDir : String) : String :=
  "${CTEST_CMAKE_COMMAND}" ++ " -DPTL_USE_ARCH=" ++ onOff flags.arch
    ++ " -DPTL_USE_GPERF=" ++ onOff flags.gperf
    ++ " -DPTL_USE_TBB=" ++ onOff flags.tbb
    ++ " -DCMAKE_BUILD_TYPE=" ++ buildType
    ++ " -DPTL_BUILD_EXAMPLES=ON " ++ sourceDir

/-- String `s` contains `sub` as a contiguous substring. -/
def containsSub (s sub : String) : Prop :=
  ∃ pre post, s = pre ++ sub ++ post

/-- A note registered by `pyctest.add_note(dir, filename, clobber)`. -/
structure Note where
  directory : String
  filename : String
  clobber : Bool
deriving DecidableEq

/-- The notes added by one call of `test_env_settings(prof_fname, clobber)`:
under `--gperf` it adds `<prof>.txt` with the given clobber flag and
`<prof>.cum.txt` with `clobber=False`; otherwise none. -/
def test_env_notes (gperf : Bool) (binaryDir prof : String) (clobber : Bool) :
    List Note :=
  if gperf then
    [{ directory := binaryDir, filename := prof ++ ".txt", clobber := clobber },
     { directory := binaryDir, filename := prof ++ ".cum.txt", clobber := false }]
  else []

/-- The environment string `test_env_settings` returns:
`"PTL_NUM_THREADS={};CPUPROFILE={};CUTOFF_LOW={}".format(mp.cpu_count(), prof_fname, 15)`.
The format call is unconditional — it does not depend on `args.gperf`. -/
def test_env_string (cpuCount : Nat) (prof : String) : String :=
  "PTL_NUM_THREADS=" ++ toString cpuCount ++ ";CPUPROFILE=" ++ prof
    ++ ";CUTOFF_LOW=" ++ toString 15

/-- Behaviour of `test_env_settings(prof_fname, clobber)`: the notes it adds
(a side effect on the pyctest state) and the environment string it returns. -/
def test_env_settings (gperf : Bool) (binaryDir : String) (cpuCount : Nat)
    (prof : String) (clobber : Bool) : List Note × String :=
  (test_env_notes gperf binaryDir prof clobber, test_env_string cpuCount prof)

/-- Splits a character list at every occurrence of `c`; executable
counterpart of Python's `str.split` for a single-character separator. -/
def splitCharAux (c : Char) : List Char → List Char → List (List Char)
  | [], acc => [acc.reverse]
  | x :: xs, acc =>
    if x = c then acc.reverse :: splitCharAux c xs []
    else splitCharAux c xs (x :: acc)

/-- Splits a string at every occurrence of the character `c`. -/
def splitChar (c : Char) (s : String) : List String :=
  (splitCharAux c s.data []).map String.mk

/-- Reads one `KEY=value` entry of a CTest `ENVIRONMENT` property string. -/
def parseEnvEntry (e : String) : String × String :=
  match splitChar '=' e with
  | [] => ("", "")
  | k :: rest => (k, String.intercalate "=" rest)

/-- The mapping denoted by a semicolon-separated `ENVIRONMENT` string. -/
def envMapping (s : String) : List (String × String) :=
  (splitChar ';' s).map parseEnvEntry

/-- Behaviour of `construct_command(cmd, args)`: starts from the empty list, prepends the
gperf cpu-profile launcher from the binary directory when `args.gperf`, then
extends with the given command tokens. -/
def construct_command (gperf : Bool) (binaryDir : String) (cmd : List String) :
    List String :=
  (if gperf then [joinPath binaryDir "gperf_cpu_profile.sh"] else []) ++ cmd

/-- A registered pyctest test case: name, `WORKING_DIRECTORY`,
`ENVIRONMENT`, `RUN_SERIAL`, and the command token list. -/
structure TestCase where
  name : String
  workingDirectory : String
  environment : String
  runSerial : Bool
  command : List String
deriving DecidableEq

/-- The inputs the test-registration block of `run_pyctest` depends on. -/
structure RunContext where
  flags : Flags
  binaryDir : String
  cpuCount : Nat
deriving DecidableEq

/-- One `pyctest.test()` block: sets the name, working directory,
environment (via `test_env_settings`), `RUN_SERIAL "ON"`, and the command
(via `construct_command`); returns the case and the notes added. -/
def make_test (ctx : RunContext) (name prof : String) (clobber : Bool)
    (exe : String) : TestCase × List Note :=
  let settings := test_env_settings ctx.flags.gperf ctx.binaryDir
    ctx.cpuCount prof clobber
  ({ name := name
     workingDirectory := ctx.binaryDir
     environment := settings.2
     runSerial := true
     command := construct_command ctx.flags.gperf ctx.binaryDir [exe] },
   settings.1)

/-- The test-registration block of `run_pyctest`: always registers
`tasking` (with `clobber=True`) and `recursive_tasking`; under `--tbb` also
`tbb_tasking` and `recursive_tbb_tasking`. Returns the registered cases in
order together with all notes added, in order. -/
def register_tests (ctx : RunContext) : List TestCase × List Note :=
  let t1 := make_test ctx "tasking" "cpu-prof-tasking" true "./tasking"
  let t2 := make_test ctx "recursive_tasking" "cpu-prof-recursive-tasking"
    false "./recursive_tasking"
  if ctx.flags.tbb then
    let t3 := make_test ctx "tbb_tasking" "cpu-prof-tbb-tasking"
      false "./tbb_tasking"
    let t4 := make_test ctx "recursive_tbb_tasking"
      "cpu-prof-tbb-recursive-tasking" false "./recursive_tbb_tasking"
    ([t1.1, t2.1, t3.1, t4.1], t1.2 ++ t2.2 ++ t3.2 ++ t4.2)
  else
    ([t1.1, t2.1], t1.2 ++ t2.2)

/-- Outcome of one invocation of `run_pyctest` at the `__main__` guard:
either it returns normally, or some step raises an exception whose
traceback has `frames` stack frames. -/
inductive RunOutcome where
  | success
  | failure (frames : Nat)
deriving DecidableEq

/-- The `limit=10` argument of `traceback.print_exception`. -/
def traceback_limit : Nat := 10

/-- The process exit status chosen by the `__main__` block:
`sys.exit(1)` in the `except` handler, `sys.exit(0)` after a clean run. -/
def main_exit_status : RunOutcome → Nat
  | RunOutcome.success => 0
  | RunOutcome.failure _ => 1

/-- The number of stack frames the `except` handler prints, if any:
`traceback.print_exception(..., limit=10)` prints at most 10 frames. -/
def main_printed_frames : RunOutcome → Option Nat
  | RunOutcome.success => none
  | RunOutcome.failure f => some (min traceback_limit f)

/- Helper lemmas on `String.append`. -/

theorem str_append_assoc (a b c : String) : a ++ b ++ c = a ++ (b ++ c) := by
  apply String.ext
  simp [String.data_append]

theorem str_append_empty (s : String) : s ++ "" = s := by
  apply String.ext
  simp [String.data_append]

/-- C5: with `use_gperf=true` and requested build type `Release` the
resolved build type is `RelWithDebInfo` and the warning fires; every other
requested build type (or `gperf=false`) resolves to itself; resolution is
idempotent; and with `gperf=true` no build type ever resolves to
`Release`. -/
theorem C5_build_type_resolution :
    resolve_build_type true "Release" = "RelWithDebInfo" ∧
    coercion_warns true "Release" = true ∧
    (∀ gperf bt, ¬(gperf = true ∧ bt = "Release") →
      resolve_build_type gperf bt = bt) ∧
    (∀ gperf bt, resolve_build_type gperf (resolve_build_type gperf bt) =
      resolve_build_type gperf bt) ∧
    (∀ bt, resolve_build_type true bt ≠ "Release") := by
  refine ⟨rfl, rfl, ?_, ?_, ?_⟩
  · intro gperf bt h
    cases gperf with
    | false => rfl
    | true =>
      have hbt : ¬bt = "Release" := fun hb => h ⟨rfl, hb⟩
      simp [resolve_build_type, hbt]
  · intro gperf bt
    cases gperf with
    | false => rfl
    | true =>
      by_cases hbt : bt = "Release"
      · subst hbt; rfl
      · simp [resolve_build_type, hbt]
  · intro bt
    by_cases hbt : bt = "Release"
    · subst hbt; simp [resolve_build_type]
    · simp [resolve_build_type, hbt]

/-- Witness for C5 at a concrete input: `RelWithDebInfo` under gperf is not
coerced. -/
theorem C5_build_type_resolution_witness :
    resolve_build_type true "RelWithDebInfo" = "RelWithDebInfo" :=
  C5_build_type_resolution.2.2.1 true "RelWithDebInfo" (by simp)

/-- C3: the configure command renders the three feature flags as ON/OFF
tokens in the fixed order arch, gperf, tbb, each ON exactly when its flag is
set, followed by the resolved build type and the source directory; with all
three flags false it contains the all-OFF substring. -/
theorem C3_configure_command_layout :
    (∀ flags bt src, configure_command flags bt src =
      "${CTEST_CMAKE_COMMAND} -DPTL_USE_ARCH="
        ++ (if flags.arch then "ON" else "OFF")
        ++ " -DPTL_USE_GPERF=" ++ (if flags.gperf then "ON" else "OFF")
        ++ " -DPTL_USE_TBB=" ++ (if flags.tbb then "ON" else "OFF")
        ++ " -DCMAKE_BUILD_TYPE=" ++ bt
        ++ " -DPTL_BUILD_EXAMPLES=ON " ++ src) ∧
    (∀ bt src, containsSub (configure_command ⟨false, false, false⟩ bt src)
      "-DPTL_USE_ARCH=OFF -DPTL_USE_GPERF=OFF -DPTL_USE_TBB=OFF") := by
  constructor
  · intro flags bt src; rfl
  · intro bt src
    refine ⟨"${CTEST_CMAKE_COMMAND} ",
      " -DCMAKE_BUILD_TYPE=" ++ bt ++ " -DPTL_BUILD_EXAMPLES=ON " ++ src, ?_⟩
    simp only [← str_append_assoc]
    rfl

/-- C4: the build name is the branch/OS prefix followed by the feature
tags in exactly the order `[tbb]`, `[arch]`, `[gperf]`, each present exactly
when its flag is set; with only `tbb=true` it is the prefix followed by
`[tbb]` alone. -/
theorem C4_build_name_tag_order :
    (∀ flags branch os ver mach, build_name flags branch os ver mach =
      base_build_name branch os ver mach
        ++ (if flags.tbb then " [tbb]" else "")
        ++ (if flags.arch then " [arch]" else "")
        ++ (if flags.gperf then " [gperf]" else "")) ∧
    (∀ branch os ver mach, build_name ⟨false, false, true⟩ branch os ver mach =
      base_build_name branch os ver mach ++ " [tbb]") := by
  constructor
  · rintro ⟨a, g, t⟩ branch os ver mach
    cases a <;> cases g <;> cases t <;>
      simp [build_name, str_append_empty, str_append_assoc]
  · intro branch os ver mach
    rfl

/-- C7: the command wrapper returns its input unchanged when gperf is off
(hence applying it twice equals applying it once), and prepends exactly one
token — the gperf launcher path under the binary directory — when gperf is
on. -/
theorem C7_construct_command_wrap :
    (∀ binaryDir cmd, construct_command false binaryDir cmd = cmd) ∧
    (∀ binaryDir cmd,
      construct_command false binaryDir (construct_command false binaryDir cmd) =
        construct_command false binaryDir cmd) ∧
    (∀ binaryDir cmd, construct_command true binaryDir cmd =
      joinPath binaryDir "gperf_cpu_profile.sh" :: cmd) :=
  ⟨fun _ _ => rfl, fun _ _ => rfl, fun _ _ => rfl⟩

/-- C1 counterexample: with profiling inactive (`gperf=false`) the per-test
environment mapping still contains the profiling-output-path variable
`CPUPROFILE` (bound to the profile name) and the cutoff variable
`CUTOFF_LOW` (bound to `15`) — they are not absent as the claim states. -/
theorem C1_counterexample :
    (envMapping
        (test_env_settings false "/bld" 4 "cpu-prof-tasking" false).2).lookup
      "CPUPROFILE" = some "cpu-prof-tasking" ∧
    (envMapping
        (test_env_settings false "/bld" 4 "cpu-prof-tasking" false).2).lookup
      "CUTOFF_LOW" = some "15" := by
  exact ⟨rfl, rfl⟩

/-- C1 amended: the environment string returned by `test_env_settings` is
the same for every value of `gperf` and `clobber` — it always sets
`PTL_NUM_THREADS` to the CPU count and always sets `CPUPROFILE` and
`CUTOFF_LOW`; the gperf flag only controls note attachment, not the
environment mapping. -/
theorem C1_env_always_sets_profile_vars :
    (∀ gperf binaryDir cpuCount prof clobber,
      (test_env_settings gperf binaryDir cpuCount prof clobber).2 =
        test_env_string cpuCount prof) ∧
    (∀ gperf clobber,
      envMapping (test_env_settings gperf "/bld" 4 "cpu-prof-tasking" clobber).2 =
        [("PTL_NUM_THREADS", "4"), ("CPUPROFILE", "cpu-prof-tasking"),
         ("CUTOFF_LOW", "15")]) ∧
    (∀ gperf clobber,
      envMapping (test_env_settings gperf "/bld" 12 "cpu-prof-tbb-tasking" clobber).2 =
        [("PTL_NUM_THREADS", "12"), ("CPUPROFILE", "cpu-prof-tbb-tasking"),
         ("CUTOFF_LOW", "15")]) :=
  ⟨fun _ _ _ _ _ => rfl, fun _ _ => rfl, fun _ _ => rfl⟩

/-- C2 counterexample: with `--gperf` given (and no stale cache), option
resolution requests a filesystem write — it copies the two gperf scripts
into the binary directory — so its effects are not confined to in-memory
record construction. -/
theorem C2_counterexample :
    (configure ⟨false, true, false⟩ "Release" false "/src" "/bld").effects =
      [FsEffect.copyFiles ["gperf_cpu_profile.sh", "gperf_heap_profile.sh"]
        "/src/.scripts" "/bld"] ∧
    (configure ⟨false, true, false⟩ "Release" false "/src" "/bld").effects ≠
      [] := by
  exact ⟨rfl, by decide⟩

/-- C2 amended: option resolution performs no filesystem writes provided no
stale `CMakeCache.txt` is present and `gperf` is not requested; otherwise it
wipes the stale cache and/or copies the gperf scripts. -/
theorem C2_no_writes_without_gperf_or_stale_cache
    (flags : Flags) (bt : String) (cacheExists : Bool) (src bld : String)
    (hg : flags.gperf = false) (hc : cacheExists = false) :
    (configure flags bt cacheExists src bld).effects = [] := by
  simp [configure, configure_effects, hg, hc]

/-- Witness for the amended C2 at a concrete input. -/
theorem C2_no_writes_witness :
    (configure ⟨false, false, false⟩ "Release" false "/src" "/bld").effects =
      [] :=
  C2_no_writes_without_gperf_or_stale_cache ⟨false, false, false⟩ "Release"
    false "/src" "/bld" rfl rfl

/-- C6: registration yields exactly the names `tasking`,
`recursive_tasking` when `use_tbb=false` and exactly those followed by
`tbb_tasking`, `recursive_tbb_tasking` when `use_tbb=true`; the two-case
name sequence is a prefix of the four-case one, and no tbb-named case
appears without the flag. -/
theorem C6_registered_test_names (ctx : RunContext) :
    ((register_tests ctx).1.map TestCase.name =
      if ctx.flags.tbb then
        ["tasking", "recursive_tasking", "tbb_tasking", "recursive_tbb_tasking"]
      else ["tasking", "recursive_tasking"]) ∧
    ((register_tests ctx).1.length = if ctx.flags.tbb then 4 else 2) ∧
    ((register_tests ctx).1.map TestCase.name).take 2 =
      ["tasking", "recursive_tasking"] := by
  obtain ⟨⟨a, g, t⟩, bld, cpu⟩ := ctx
  cases t <;> exact ⟨rfl, rfl, rfl⟩

/-- C8: over a run with profiling active, exactly one note carries
`clobber=true` — the `.txt` note of the first-registered case `tasking` —
and every other note added during registration has `clobber=false`. -/
theorem C8_single_clobber_note (ctx : RunContext)
    (h : ctx.flags.gperf = true) :
    (register_tests ctx).2.filter (fun n => n.clobber) =
      [{ directory := ctx.binaryDir, filename := "cpu-prof-tasking.txt",
         clobber := true }] := by
  obtain ⟨⟨a, g, t⟩, bld, cpu⟩ := ctx
  cases g with
  | false => cases h
  | true => cases t <;> rfl

/-- Witness for C8 at a concrete input. -/
theorem C8_single_clobber_note_witness :
    (register_tests ⟨⟨false, true, true⟩, "/bld", 8⟩).2.filter
        (fun n => n.clobber) =
      [{ directory := "/bld", filename := "cpu-prof-tasking.txt",
         clobber := true }] :=
  C8_single_clobber_note ⟨⟨false, true, true⟩, "/bld", 8⟩ rfl

/-- C10: with profiling active every registered case adds exactly two
notes — `<prof>.txt` carrying that case's clobber flag and `<prof>.cum.txt`
with `clobber=false` — and with profiling inactive no notes are added at
all. -/
theorem C10_two_notes_per_case (ctx : RunContext) :
    ((register_tests ctx).2 =
      if ctx.flags.gperf then
        (if ctx.flags.tbb then
          [{ directory := ctx.binaryDir, filename := "cpu-prof-tasking.txt",
             clobber := true },
           { directory := ctx.binaryDir, filename := "cpu-prof-tasking.cum.txt",
             clobber := false },
           { directory := ctx.binaryDir,
             filename := "cpu-prof-recursive-tasking.txt", clobber := false },
           { directory := ctx.binaryDir,
             filename := "cpu-prof-recursive-tasking.cum.txt", clobber := false },
           { directory := ctx.binaryDir, filename := "cpu-prof-tbb-tasking.txt",
             clobber := false },
           { directory := ctx.binaryDir,
             filename := "cpu-prof-tbb-tasking.cum.txt", clobber := false },
           { directory := ctx.binaryDir,
             filename := "cpu-prof-tbb-recursive-tasking.txt", clobber := false },
           { directory := ctx.binaryDir,
             filename := "cpu-prof-tbb-recursive-tasking.cum.txt",
             clobber := false }]
        else
          [{ directory := ctx.binaryDir, filename := "cpu-prof-tasking.txt",
             clobber := true },
           { directory := ctx.binaryDir, filename := "cpu-prof-tasking.cum.txt",
             clobber := false },
           { directory := ctx.binaryDir,
             filename := "cpu-prof-recursive-tasking.txt", clobber := false },
           { directory := ctx.binaryDir,
             filename := "cpu-prof-recursive-tasking.cum.txt",
             clobber := false }])
      else []) ∧
    (register_tests ctx).2.length =
      (if ctx.flags.gperf then 2 * (register_tests ctx).1.length else 0) := by
  obtain ⟨⟨a, g, t⟩, bld, cpu⟩ := ctx
  cases g <;> cases t <;> exact ⟨rfl, rfl⟩

/-- C9: the `__main__` guard exits with status 1 exactly when some step of
the pipeline raises (status 0 on clean completion, and no other status
exists), and the traceback it prints on failure is bounded to at most 10
frames. -/
theorem C9_exit_status_and_trace (o : RunOutcome) :
    (main_exit_status o = 0 ∨ main_exit_status o = 1) ∧
    (main_exit_status o = 0 ↔ o = RunOutcome.success) ∧
    (∀ n, main_printed_frames o = some n → n ≤ 10) := by
  cases o with
  | success =>
    refine ⟨Or.inl rfl, by simp [main_exit_status], ?_⟩
    intro n h
    cases h
  | failure f =>
    refine ⟨Or.inr rfl, by simp [main_exit_status], ?_⟩
    intro n h
    injection h with h
    subst h
    exact Nat.min_le_left traceback_limit f

/-- Witness for C9 at a concrete input: a failure with a 25-frame traceback
exits with status 1 and prints at most 10 frames. -/
theorem C9_exit_status_and_trace_witness :
    main_exit_status (RunOutcome.failure 25) = 1 ∧ (10 : Nat) ≤ 10 :=
  ⟨Or.resolve_left (C9_exit_status_and_trace (RunOutcome.failure 25)).1
      (by simp [main_exit_status]),
   (C9_exit_status_and_trace (RunOutcome.failure 25)).2.2 10 rfl⟩

end PTL
